import Mathlib

/-!
# Verification of the kantama leasing-workflow backend

Shallow embedding of the workflow routes of `src/backend/app` (FastAPI +
SQLAlchemy) into Lean 4, together with theorems checking the
natural-language specification against the embedded code.

Modelling conventions:
* SQL `Float` columns are modelled as `ℚ` (all values occurring in the
  routes and claims are exact decimals), `Integer` as `Int` / `Nat` for
  primary keys, `DateTime` as `Nat` (an abstract clock value handed to each
  route as `now`); `nullable` columns and optional Pydantic fields are
  `Option`.
* The database session is a `DB` record of entity lists; a route is a
  function `DB → args → Except HTTPError (DB × result)`.  Every
  `HTTPException` in the Python routes is raised before the session is
  committed, so an error result carries no state: the state is unchanged on
  failure by construction.  A `scalar_one()` call on a missing row (a
  broken foreign key) is modelled as a 500 error.
* Python truthiness drives the `or`-based pre-fill logic and the pre-send
  validation: `None`, `0`, `""` and `[]` are falsy.  This is modelled
  explicitly by `pyOrS`/`pyOrQ`/`pyOrI`/`truthyS`/`truthyQ`.
* Emails (`email_service`) write no database state and are omitted;
  in-app notifications (`notification_service.create_notification`) are
  modelled as appended `Notification` rows.  A Python loop of
  `create_notification` calls is one append of the mapped list, in loop
  order.  The DB-assigned primary keys of notifications and info-request
  responses are never read by any route and are omitted from those rows.
* `created_at`/`updated_at` bookkeeping columns are only used for ordering
  of list endpoints; ordering is dropped (no claim depends on it) and those
  columns are omitted.
-/

namespace Kantama

/-- Enum `UserRole` from `app/models/user.py`. -/
inductive UserRole
  | CUSTOMER
  | ADMIN
  | FINANCIER
deriving DecidableEq, Repr

/-- Enum `ApplicationStatus` from `app/models/application.py`. -/
inductive ApplicationStatus
  | DRAFT
  | SUBMITTED
  | SUBMITTED_TO_FINANCIER
  | INFO_REQUESTED
  | OFFER_SENT
  | OFFER_ACCEPTED
  | OFFER_REJECTED
  | CONTRACT_SENT
  | SIGNED
  | CLOSED
  | CANCELLED
deriving DecidableEq, Repr

/-- Enum `OfferStatus` from `app/models/offer.py`. -/
inductive OfferStatus
  | DRAFT
  | PENDING_ADMIN
  | SENT
  | ACCEPTED
  | REJECTED
  | EXPIRED
deriving DecidableEq, Repr

/-- Enum `ContractStatus` from `app/models/contract.py`. -/
inductive ContractStatus
  | DRAFT
  | PENDING_ADMIN
  | SENT
  | SIGNED
  | REJECTED
  | EXPIRED
deriving DecidableEq, Repr

/-- Enum `AssignmentStatus` from `app/models/assignment.py`. -/
inductive AssignmentStatus
  | PENDING
  | ACCEPTED
  | REJECTED
  | IN_PROGRESS
  | COMPLETED
deriving DecidableEq, Repr

/-- Enum `InfoRequestStatus` from `app/models/info_request.py`. -/
inductive InfoRequestStatus
  | PENDING
  | RESPONDED
  | CLOSED
deriving DecidableEq, Repr

/-- Python `a or b` on optional strings: `None` and `""` are falsy. -/
def pyOrS (a b : Option String) : Option String :=
  match a with
  | some s => if s = "" then b else some s
  | none => b

/-- Python `a or b` on optional floats: `None` and `0.0` are falsy. -/
def pyOrQ (a b : Option ℚ) : Option ℚ :=
  match a with
  | some q => if q = 0 then b else some q
  | none => b

/-- Python `a or b` on optional ints: `None` and `0` are falsy. -/
def pyOrI (a b : Option Int) : Option Int :=
  match a with
  | some n => if n = 0 then b else some n
  | none => b

/-- Python truthiness of an optional string (`if not x: ...`). -/
def truthyS : Option String → Bool
  | some s => decide (s ≠ "")
  | none => false

/-- Python truthiness of an optional float. -/
def truthyQ : Option ℚ → Bool
  | some q => decide (q ≠ 0)
  | none => false

/-- Python truthiness of an optional list (`[...] if xs else None`). -/
def truthyList {α : Type} : Option (List α) → Option (List α)
  | some (a :: t) => some (a :: t)
  | _ => none

/-- Model `User` from `app/models/user.py` (workflow-relevant columns). -/
structure User where
  id : Nat
  email : String
  role : UserRole
  first_name : Option String
  last_name : Option String
  company_name : Option String
  financier_id : Option Nat
  is_active : Bool
deriving DecidableEq, Repr

/-- Model `Financier` from `app/models/financier.py`. -/
structure Financier where
  id : Nat
  name : String
  email : String
  phone : Option String
  address : Option String
  business_id : Option String
  is_active : Bool
  notes : Option String
deriving DecidableEq, Repr

/-- Model `Application` from `app/models/application.py` (workflow-relevant
columns; `extra_data`, `application_type` and timestamps are not read by
the embedded routes and are omitted). -/
structure Application where
  id : Nat
  reference_number : String
  status : ApplicationStatus
  customer_id : Nat
  company_name : String
  business_id : String
  contact_person : Option String
  contact_email : String
  contact_phone : Option String
  street_address : Option String
  postal_code : Option String
  city : Option String
  equipment_description : String
  equipment_supplier : Option String
  equipment_price : ℚ
  equipment_age_months : Option Int
  equipment_serial_number : Option String
  original_purchase_price : Option ℚ
  current_value : Option ℚ
  requested_term_months : Option Int
  requested_residual_value : Option ℚ
  additional_info : Option String
deriving DecidableEq, Repr

/-- Model `ApplicationAssignment` from `app/models/assignment.py`. -/
structure ApplicationAssignment where
  id : Nat
  application_id : Nat
  financier_id : Nat
  status : AssignmentStatus
  notes : Option String
  assigned_by_id : Nat
deriving DecidableEq, Repr

/-- Model `Offer` from `app/models/offer.py` (`terms_json` is an opaque JSON
escape hatch never read by the routes; omitted). -/
structure Offer where
  id : Nat
  application_id : Nat
  financier_id : Nat
  monthly_payment : ℚ
  term_months : Int
  upfront_payment : Option ℚ
  residual_value : Option ℚ
  interest_or_margin : Option ℚ
  included_services : Option String
  notes_to_customer : Option String
  internal_notes : Option String
  status : OfferStatus
  attachment_file_id : Option Nat
  sent_at : Option Nat
  responded_at : Option Nat
  expires_at : Option Nat
deriving DecidableEq, Repr

/-- Schema `LeaseObject` from `app/schemas/contract.py`. -/
structure LeaseObject where
  is_new : Bool := false
  brand_model : String
  accessories : Option String := none
  serial_number : Option String := none
  year_model : Option Int := none
deriving DecidableEq, Repr

/-- Model `Contract` from `app/models/contract.py`. -/
structure Contract where
  id : Nat
  contract_number : Option String
  application_id : Nat
  financier_id : Nat
  offer_id : Option Nat
  lessee_company_name : Option String
  lessee_business_id : Option String
  lessee_street_address : Option String
  lessee_postal_code : Option String
  lessee_city : Option String
  lessee_country : Option String
  lessee_contact_person : Option String
  lessee_phone : Option String
  lessee_email : Option String
  lessee_tax_country : Option String
  lessor_company_name : Option String
  lessor_business_id : Option String
  lessor_street_address : Option String
  lessor_postal_code : Option String
  lessor_city : Option String
  seller_company_name : Option String
  seller_business_id : Option String
  seller_street_address : Option String
  seller_postal_code : Option String
  seller_city : Option String
  seller_contact_person : Option String
  seller_phone : Option String
  seller_email : Option String
  seller_tax_country : Option String
  lease_objects : Option (List LeaseObject)
  usage_location : Option String
  delivery_method : Option String
  estimated_delivery_date : Option Nat
  other_delivery_terms : Option String
  advance_payment : Option ℚ
  monthly_rent : Option ℚ
  rent_installments_count : Option Int
  rent_installments_start : Option Int
  rent_installments_end : Option Int
  residual_value : Option ℚ
  processing_fee : Option ℚ
  arrangement_fee : Option ℚ
  invoicing_method : Option String
  lease_period_months : Option Int
  lease_start_date : Option Nat
  insurance_type : Option String
  insurance_provider : Option String
  insurance_policy_number : Option String
  bank_name : Option String
  bank_iban : Option String
  bank_bic : Option String
  guarantees : Option String
  guarantee_type : Option String
  special_conditions : Option String
  logo_file_id : Option Nat
  message_to_customer : Option String
  internal_notes : Option String
  contract_file_id : Option Nat
  signed_file_id : Option Nat
  lessee_signature_date : Option Nat
  lessee_signature_place : Option String
  lessee_signer_name : Option String
  lessor_signature_date : Option Nat
  lessor_signature_place : Option String
  lessor_signer_name : Option String
  status : ContractStatus
  sent_at : Option Nat
  signed_at : Option Nat
deriving DecidableEq, Repr

/-- Model `InfoRequest` from `app/models/info_request.py`. -/
structure InfoRequest where
  id : Nat
  application_id : Nat
  financier_id : Nat
  message : String
  requested_items : Option (List String)
  status : InfoRequestStatus
deriving DecidableEq, Repr

/-- Model `InfoRequestResponse` row from `app/models/info_request.py` (named
`...Row` to avoid clashing with the Pydantic response schema; the
DB-assigned primary key is never read and is omitted). -/
structure InfoRequestResponseRow where
  info_request_id : Nat
  user_id : Nat
  message : String
  attachments : Option (List Nat)
deriving DecidableEq, Repr

/-- Model `Notification` from `app/models/notification.py` (fields written by
`notification_service.create_notification`; the primary key, `data`,
`is_read` and `is_email_sent` keep their defaults and are never read by
the embedded routes). -/
structure Notification where
  user_id : Nat
  title : String
  message : String
  notification_type : String
  reference_type : Option String
  reference_id : Option Nat
  action_url : Option String
deriving DecidableEq, Repr

/-- The database session state: one list per table. -/
structure DB where
  users : List User
  financiers : List Financier
  applications : List Application
  assignments : List ApplicationAssignment
  offers : List Offer
  contracts : List Contract
  info_requests : List InfoRequest
  info_request_responses : List InfoRequestResponseRow
  notifications : List Notification
deriving DecidableEq, Repr

/-- An `HTTPException(status_code, detail)`. -/
structure HTTPError where
  code : Nat
  detail : String
deriving DecidableEq, Repr

/-- Query `select(E).where(E.id == i)` + `scalar_one_or_none()`. -/
def findById {α : Type} (getId : α → Nat) (l : List α) (i : Nat) : Option α :=
  l.find? (fun x => getId x == i)

/-- In-place mutation of the row with id `i` followed by `commit()`. -/
def updateById {α : Type} (getId : α → Nat) (l : List α) (i : Nat) (f : α → α) : List α :=
  l.map (fun x => if getId x == i then f x else x)

/-- A fresh autoincrement primary key. -/
def freshId (ids : List Nat) : Nat :=
  ids.foldr max 0 + 1

def DB.findApplication (db : DB) (i : Nat) : Option Application :=
  findById Application.id db.applications i

def DB.findOffer (db : DB) (i : Nat) : Option Offer :=
  findById Offer.id db.offers i

def DB.findFinancier (db : DB) (i : Nat) : Option Financier :=
  findById Financier.id db.financiers i

def DB.findContract (db : DB) (i : Nat) : Option Contract :=
  findById Contract.id db.contracts i

def DB.findUser (db : DB) (i : Nat) : Option User :=
  findById User.id db.users i

def DB.findInfoRequest (db : DB) (i : Nat) : Option InfoRequest :=
  findById InfoRequest.id db.info_requests i

/-- Query `select(User).where(User.financier_id == fid, User.is_active == True)`:
the active users of one financier organization, in table order. -/
def DB.activeFinancierUsers (db : DB) (fid : Nat) : List User :=
  db.users.filter (fun u => u.financier_id == some fid && u.is_active)

/-- Modelled from the spec: `require_role` lives in
`app/utils/auth.py`, which is not present under `src/` (only re-exported
by `app/utils/__init__.py`).  §4.2 of the spec: an authenticated actor
lacking the required role is rejected with an authorization error before
any business logic runs. -/
def requireRole (cu : User) (r : UserRole) : Option HTTPError :=
  if cu.role = r then none else some ⟨403, "Forbidden"⟩

/-- One row written by `notification_service.create_notification`. -/
def mkNotification (user_id : Nat) (title message ntype : String)
    (rtype : Option String) (rid : Option Nat) (url : Option String) : Notification :=
  { user_id := user_id, title := title, message := message,
    notification_type := ntype, reference_type := rtype,
    reference_id := rid, action_url := url }

/-- Fan-out of `notification_service.notify_sent_to_financier`: one notification for
the owning customer, then one per active financier user, in loop order. -/
def notifySentToFinancier (customer_id : Nat) (financier_user_ids : List Nat)
    (application_id : Nat) (reference_number financier_name : String) : List Notification :=
  mkNotification customer_id "Hakemus käsittelyssä"
      ("Hakemuksenne " ++ reference_number ++ " on lähetetty rahoittajalle "
        ++ financier_name ++ " käsittelyyn.")
      "SUBMITTED_TO_FINANCIER" (some "application") (some application_id)
      (some ("/dashboard/applications/" ++ toString application_id))
    :: financier_user_ids.map (fun uid =>
      mkNotification uid "Uusi hakemus"
        ("Uusi rahoitushakemus " ++ reference_number ++ " odottaa käsittelyä.")
        "NEW_APPLICATION" (some "application") (some application_id)
        (some ("/financier/applications/" ++ toString application_id)))

/-- Fan-out of `notification_service.notify_offer_accepted`: one
notification per active financier user. -/
def notifyOfferAccepted (financier_user_ids : List Nat) (application_id : Nat)
    (reference_number company_name : String) : List Notification :=
  financier_user_ids.map (fun uid =>
    mkNotification uid "Tarjous hyväksytty"
      ("Asiakas " ++ company_name ++ " on hyväksynyt tarjouksen hakemukseen "
        ++ reference_number ++ ".")
      "OFFER_ACCEPTED" (some "application") (some application_id)
      (some ("/financier/applications/" ++ toString application_id)))

/-- Fan-out of `notification_service.notify_info_provided`: one notification per
active financier user. -/
def notifyInfoProvided (financier_user_ids : List Nat) (application_id : Nat)
    (reference_number : String) : List Notification :=
  financier_user_ids.map (fun uid =>
    mkNotification uid "Lisätiedot toimitettu"
      ("Asiakas on toimittanut lisätietoja hakemukseen " ++ reference_number ++ ".")
      "INFO_PROVIDED" (some "application") (some application_id)
      (some ("/financier/applications/" ++ toString application_id)))

/-- Fan-out of `notification_service.notify_contract_sent`: one notification for the
customer. -/
def notifyContractSent (customer_id : Nat) (application_id : Nat)
    (reference_number : String) : List Notification :=
  [mkNotification customer_id "Sopimus allekirjoitettavaksi"
    ("Sopimus hakemukseenne " ++ reference_number ++ " on valmis allekirjoitettavaksi.")
    "CONTRACT_SENT" (some "application") (some application_id)
    (some ("/dashboard/applications/" ++ toString application_id))]

/-- Schema `AssignmentCreate` from `app/schemas/assignment.py`. -/
structure AssignmentCreate where
  application_id : Nat
  financier_id : Nat
  notes : Option String := none
deriving DecidableEq, Repr

/-- Schema `InfoRequestResponseCreate` from `app/schemas/info_request.py`. -/
structure InfoRequestResponseCreate where
  info_request_id : Nat
  message : String
  attachment_ids : Option (List Nat) := none
deriving DecidableEq, Repr

/-- Schema `ContractCreate` from `app/schemas/contract.py`, with the schema's
defaults.  A field holds `none` when the caller did not supply it and
`some v` when the caller supplied `v` (explicit JSON `null`s are
identified with absence, as no claim distinguishes them). -/
structure ContractCreate where
  application_id : Nat
  offer_id : Option Nat := none
  lessee_company_name : Option String := none
  lessee_business_id : Option String := none
  lessee_street_address : Option String := none
  lessee_postal_code : Option String := none
  lessee_city : Option String := none
  lessee_country : Option String := some "Finland"
  lessee_contact_person : Option String := none
  lessee_phone : Option String := none
  lessee_email : Option String := none
  lessee_tax_country : Option String := some "Suomi"
  lessor_company_name : Option String := some "Rahoittaja Oy"
  lessor_business_id : Option String := none
  lessor_street_address : Option String := none
  lessor_postal_code : Option String := none
  lessor_city : Option String := none
  seller_company_name : Option String := none
  seller_business_id : Option String := none
  seller_street_address : Option String := none
  seller_postal_code : Option String := none
  seller_city : Option String := none
  seller_contact_person : Option String := none
  seller_phone : Option String := none
  seller_email : Option String := none
  seller_tax_country : Option String := some "Suomi"
  lease_objects : Option (List LeaseObject) := none
  usage_location : Option String := some "Suomi"
  delivery_method : Option String := none
  estimated_delivery_date : Option Nat := none
  other_delivery_terms : Option String := none
  advance_payment : Option ℚ := none
  monthly_rent : Option ℚ := none
  rent_installments_count : Option Int := none
  rent_installments_start : Option Int := some 1
  rent_installments_end : Option Int := none
  residual_value : Option ℚ := none
  processing_fee : Option ℚ := some 500
  arrangement_fee : Option ℚ := some 10
  invoicing_method : Option String := some "E-Lasku"
  lease_period_months : Option Int := none
  lease_start_date : Option Nat := none
  insurance_type : Option String := none
  insurance_provider : Option String := none
  insurance_policy_number : Option String := none
  bank_name : Option String := none
  bank_iban : Option String := none
  bank_bic : Option String := none
  guarantees : Option String := none
  guarantee_type : Option String := none
  special_conditions : Option String := none
  message_to_customer : Option String := none
  internal_notes : Option String := none
deriving DecidableEq, Repr

/-- Schema `ApplicationUpdate` from `app/schemas/application.py`.  `none` means
the field was not supplied (Pydantic `exclude_unset`); `some v` means the
caller supplied `v`. -/
structure ApplicationUpdate where
  company_name : Option String := none
  business_id : Option String := none
  contact_person : Option String := none
  contact_email : Option String := none
  contact_phone : Option String := none
  street_address : Option String := none
  postal_code : Option String := none
  city : Option String := none
  equipment_description : Option String := none
  equipment_supplier : Option String := none
  equipment_price : Option ℚ := none
  equipment_age_months : Option Int := none
  equipment_serial_number : Option String := none
  original_purchase_price : Option ℚ := none
  current_value : Option ℚ := none
  requested_term_months : Option Int := none
  requested_residual_value : Option ℚ := none
  additional_info : Option String := none
  status : Option ApplicationStatus := none
deriving DecidableEq, Repr

/-- Route `POST /assignments/` — `assign_to_financier` in
`app/routes/assignments.py`.  Admin only.  Checks, in source order:
application exists (404), financier exists and is active (404), no
existing assignment for the (application, financier) pair (400 on one
row, 500 on several — `scalar_one_or_none` raises `MultipleResultsFound`);
then inserts a PENDING assignment, unconditionally sets the application
status to SUBMITTED_TO_FINANCIER, commits, and fans out notifications. -/
def assign_to_financier (db : DB) (d : AssignmentCreate) (cu : User) :
    Except HTTPError (DB × ApplicationAssignment) :=
  match requireRole cu UserRole.ADMIN with
  | some e => .error e
  | none =>
  match db.findApplication d.application_id with
  | none => .error ⟨404, "Hakemusta ei löytynyt"⟩
  | some app =>
  match db.findFinancier d.financier_id with
  | none => .error ⟨404, "Rahoittajaa ei löytynyt tai se ei ole aktiivinen"⟩
  | some fin =>
  if !fin.is_active then .error ⟨404, "Rahoittajaa ei löytynyt tai se ei ole aktiivinen"⟩
  else
  match db.assignments.filter (fun a =>
      a.application_id == d.application_id && a.financier_id == d.financier_id) with
  | _ :: _ :: _ => .error ⟨500, "Internal Server Error"⟩
  | _ :: [] => .error ⟨400, "Hakemus on jo lähetetty tälle rahoittajalle"⟩
  | [] =>
    let asg : ApplicationAssignment :=
      { id := freshId (db.assignments.map (·.id)),
        application_id := d.application_id,
        financier_id := d.financier_id,
        status := AssignmentStatus.PENDING,
        notes := d.notes,
        assigned_by_id := cu.id }
    let db1 : DB := { db with
      assignments := db.assignments ++ [asg],
      applications := updateById Application.id db.applications d.application_id
        (fun a => { a with status := ApplicationStatus.SUBMITTED_TO_FINANCIER }) }
    let fuids := (db1.activeFinancierUsers fin.id).map (·.id)
    let db2 : DB := { db1 with notifications := (db1.notifications ++
        notifySentToFinancier app.customer_id fuids app.id app.reference_number fin.name) }
    .ok (db2, asg)

/-- Route `POST /offers/{offer_id}/accept` — `accept_offer` in
`app/routes/offers.py`.  Customer only.  Checks, in source order: offer
exists (404), offer status is SENT (400), the acting customer owns the
offer's application (403); then sets the offer to ACCEPTED with
`responded_at = now`, the application to OFFER_ACCEPTED, commits, and
notifies the financier's active users. -/
def accept_offer (db : DB) (offer_id : Nat) (cu : User) (now : Nat) :
    Except HTTPError (DB × String) :=
  match requireRole cu UserRole.CUSTOMER with
  | some e => .error e
  | none =>
  match db.findOffer offer_id with
  | none => .error ⟨404, "Tarjousta ei löytynyt"⟩
  | some offer =>
  if offer.status ≠ OfferStatus.SENT then
    .error ⟨400, "Tarjousta ei voi hyväksyä tässä tilassa"⟩
  else
  match db.findApplication offer.application_id with
  | none => .error ⟨500, "Internal Server Error"⟩
  | some app =>
  if app.customer_id ≠ cu.id then .error ⟨403, "Ei käyttöoikeutta"⟩
  else
    let db1 : DB := { db with
      offers := updateById Offer.id db.offers offer_id
        (fun o => { o with status := OfferStatus.ACCEPTED, responded_at := some now }),
      applications := updateById Application.id db.applications offer.application_id
        (fun a => { a with status := ApplicationStatus.OFFER_ACCEPTED }) }
    match db1.findFinancier offer.financier_id with
    | none => .error ⟨500, "Internal Server Error"⟩
    | some fin =>
      let fuids := (db1.activeFinancierUsers fin.id).map (·.id)
      let db2 : DB := { db1 with notifications := (db1.notifications ++
          notifyOfferAccepted fuids app.id app.reference_number app.company_name) }
      .ok (db2, "Tarjous hyväksytty")

/-- Route `GET /offers/application/{application_id}` — `get_application_offers`
in `app/routes/offers.py`.  Read-only.  A customer must own the
application (403) and then sees only offers whose status is neither DRAFT
nor PENDING_ADMIN; a financier sees only its own offers; an admin sees
all.  (`order_by created_at desc` is dropped.) -/
def get_application_offers (db : DB) (application_id : Nat) (cu : User) :
    Except HTTPError (List Offer) :=
  match db.findApplication application_id with
  | none => .error ⟨404, "Hakemusta ei löytynyt"⟩
  | some app =>
    if cu.role = UserRole.CUSTOMER then
      if app.customer_id ≠ cu.id then .error ⟨403, "Ei käyttöoikeutta"⟩
      else .ok (db.offers.filter (fun o =>
        o.application_id == application_id &&
        !(o.status == OfferStatus.DRAFT || o.status == OfferStatus.PENDING_ADMIN)))
    else if cu.role = UserRole.FINANCIER then
      .ok (db.offers.filter (fun o =>
        o.application_id == application_id && some o.financier_id == cu.financier_id))
    else
      .ok (db.offers.filter (fun o => o.application_id == application_id))

/-- Route `GET /offers/{offer_id}` — `get_offer` in `app/routes/offers.py`.
Read-only.  404 if absent; a customer must own the application (403) and
is refused with 403 when the offer is DRAFT or PENDING_ADMIN; a financier
must own the offer (403); an admin always passes. -/
def get_offer (db : DB) (offer_id : Nat) (cu : User) : Except HTTPError Offer :=
  match db.findOffer offer_id with
  | none => .error ⟨404, "Tarjousta ei löytynyt"⟩
  | some offer =>
  match db.findApplication offer.application_id with
  | none => .error ⟨500, "Internal Server Error"⟩
  | some app =>
    if cu.role = UserRole.CUSTOMER then
      if app.customer_id ≠ cu.id then .error ⟨403, "Ei käyttöoikeutta"⟩
      else if offer.status = OfferStatus.DRAFT ∨ offer.status = OfferStatus.PENDING_ADMIN then
        .error ⟨403, "Ei käyttöoikeutta"⟩
      else .ok offer
    else if cu.role = UserRole.FINANCIER then
      if some offer.financier_id ≠ cu.financier_id then .error ⟨403, "Ei käyttöoikeutta"⟩
      else .ok offer
    else .ok offer

/-- Route `POST /contracts/` — `create_contract` in `app/routes/contracts.py`.
Financier only.  Checks, in source order: application exists (404), the
financier is assigned to it (403), the application status is
OFFER_ACCEPTED or CONTRACT_SENT (400); loads the financier row, loads the
referenced offer only if it is ACCEPTED, then builds the DRAFT contract:
each pre-fillable field is Python `caller-value or prefill-value`, so a
falsy caller value (`None`, `0`, `""`) falls through to the pre-fill.
`generate_contract_number` draws six random digits; the drawn number is
taken here as the argument `cnum`. -/
def create_contract (db : DB) (d : ContractCreate) (cu : User) (cnum : String) :
    Except HTTPError (DB × Contract) :=
  match requireRole cu UserRole.FINANCIER with
  | some e => .error e
  | none =>
  match db.findApplication d.application_id with
  | none => .error ⟨404, "Hakemusta ei löytynyt"⟩
  | some app =>
  if !(db.assignments.any (fun a =>
      a.application_id == app.id && some a.financier_id == cu.financier_id)) then
    .error ⟨403, "Ei käyttöoikeutta"⟩
  else
  if !(app.status = ApplicationStatus.OFFER_ACCEPTED ∨
       app.status = ApplicationStatus.CONTRACT_SENT : Bool) then
    .error ⟨400, "Sopimus voidaan luoda vain hyväksytylle tarjoukselle"⟩
  else
  match db.financiers.find? (fun f => some f.id == cu.financier_id) with
  | none => .error ⟨500, "Internal Server Error"⟩
  | some fin =>
    let accepted_offer : Option Offer :=
      match d.offer_id with
      | some oid => db.offers.find? (fun o => o.id == oid && o.status == OfferStatus.ACCEPTED)
      | none => none
    let contract : Contract :=
      { id := freshId (db.contracts.map (·.id)),
        contract_number := some cnum,
        application_id := app.id,
        financier_id := fin.id,
        offer_id := d.offer_id,
        lessee_company_name := pyOrS d.lessee_company_name (some app.company_name),
        lessee_business_id := pyOrS d.lessee_business_id (some app.business_id),
        lessee_street_address := pyOrS d.lessee_street_address app.street_address,
        lessee_postal_code := pyOrS d.lessee_postal_code app.postal_code,
        lessee_city := pyOrS d.lessee_city app.city,
        lessee_country := d.lessee_country,
        lessee_contact_person := pyOrS d.lessee_contact_person app.contact_person,
        lessee_phone := pyOrS d.lessee_phone app.contact_phone,
        lessee_email := pyOrS d.lessee_email (some app.contact_email),
        lessee_tax_country := d.lessee_tax_country,
        lessor_company_name := pyOrS d.lessor_company_name (some fin.name),
        lessor_business_id := pyOrS d.lessor_business_id fin.business_id,
        lessor_street_address := pyOrS d.lessor_street_address fin.address,
        lessor_postal_code := d.lessor_postal_code,
        lessor_city := d.lessor_city,
        seller_company_name := pyOrS d.seller_company_name app.equipment_supplier,
        seller_business_id := d.seller_business_id,
        seller_street_address := d.seller_street_address,
        seller_postal_code := d.seller_postal_code,
        seller_city := d.seller_city,
        seller_contact_person := d.seller_contact_person,
        seller_phone := d.seller_phone,
        seller_email := d.seller_email,
        seller_tax_country := d.seller_tax_country,
        lease_objects := truthyList d.lease_objects,
        usage_location := d.usage_location,
        delivery_method := d.delivery_method,
        estimated_delivery_date := d.estimated_delivery_date,
        other_delivery_terms := d.other_delivery_terms,
        advance_payment := pyOrQ d.advance_payment (accepted_offer.bind (·.upfront_payment)),
        monthly_rent := pyOrQ d.monthly_rent (accepted_offer.map (·.monthly_payment)),
        rent_installments_count :=
          pyOrI d.rent_installments_count (accepted_offer.map (·.term_months)),
        rent_installments_start := d.rent_installments_start,
        rent_installments_end :=
          pyOrI d.rent_installments_end (accepted_offer.map (·.term_months)),
        residual_value := pyOrQ d.residual_value (accepted_offer.bind (·.residual_value)),
        processing_fee := d.processing_fee,
        arrangement_fee := d.arrangement_fee,
        invoicing_method := d.invoicing_method,
        lease_period_months :=
          pyOrI d.lease_period_months (accepted_offer.map (·.term_months)),
        lease_start_date := d.lease_start_date,
        insurance_type := d.insurance_type,
        insurance_provider := d.insurance_provider,
        insurance_policy_number := d.insurance_policy_number,
        bank_name := d.bank_name,
        bank_iban := d.bank_iban,
        bank_bic := d.bank_bic,
        guarantees := d.guarantees,
        guarantee_type := d.guarantee_type,
        special_conditions := d.special_conditions,
        logo_file_id := none,
        message_to_customer := d.message_to_customer,
        internal_notes := d.internal_notes,
        contract_file_id := none,
        signed_file_id := none,
        lessee_signature_date := none,
        lessee_signature_place := none,
        lessee_signer_name := none,
        lessor_signature_date := none,
        lessor_signature_place := none,
        lessor_signer_name := none,
        status := ContractStatus.DRAFT,
        sent_at := none,
        signed_at := none }
    .ok ({ db with contracts := db.contracts ++ [contract] }, contract)

/-- Route `POST /contracts/{contract_id}/send` — `send_contract` in
`app/routes/contracts.py`.  Financier only.  Checks, in source order:
contract exists (404), the acting financier owns it (403), status is
DRAFT (400 "Sopimus on jo lähetetty"), `lessee_company_name` is truthy
(400 "Vuokralleottajan tiedot puuttuvat"), `monthly_rent` is truthy (400
"Vuokraerä puuttuu"); then sets the contract to SENT with
`sent_at = now`, the application to CONTRACT_SENT, commits, and notifies
the customer. -/
def send_contract (db : DB) (contract_id : Nat) (cu : User) (now : Nat) :
    Except HTTPError (DB × Contract) :=
  match requireRole cu UserRole.FINANCIER with
  | some e => .error e
  | none =>
  match db.findContract contract_id with
  | none => .error ⟨404, "Sopimusta ei löytynyt"⟩
  | some contract =>
  if some contract.financier_id ≠ cu.financier_id then .error ⟨403, "Ei käyttöoikeutta"⟩
  else
  if contract.status ≠ ContractStatus.DRAFT then .error ⟨400, "Sopimus on jo lähetetty"⟩
  else
  if !truthyS contract.lessee_company_name then
    .error ⟨400, "Vuokralleottajan tiedot puuttuvat"⟩
  else
  if !truthyQ contract.monthly_rent then .error ⟨400, "Vuokraerä puuttuu"⟩
  else
  match db.findApplication contract.application_id with
  | none => .error ⟨500, "Internal Server Error"⟩
  | some app =>
  match db.findUser app.customer_id with
  | none => .error ⟨500, "Internal Server Error"⟩
  | some customer =>
    let contract' : Contract :=
      { contract with status := ContractStatus.SENT, sent_at := some now }
    let db1 : DB := { db with
      contracts := updateById Contract.id db.contracts contract_id
        (fun c => { c with status := ContractStatus.SENT, sent_at := some now }),
      applications := updateById Application.id db.applications contract.application_id
        (fun a => { a with status := ApplicationStatus.CONTRACT_SENT }) }
    let db2 : DB := { db1 with notifications := (db1.notifications ++
        notifyContractSent customer.id app.id app.reference_number) }
    .ok (db2, contract')

/-- Route `POST /info-requests/respond` — `respond_to_info_request` in
`app/routes/info_requests.py`.  Any authenticated role.  Checks: info
request exists (404); a customer must own the application (403); a
financier must be the requesting financier (403); an admin passes.  Then
appends the response row and sets the info request status to RESPONDED —
unconditionally, whoever responds — commits, and, only when the responder
is a customer, notifies the requesting financier's active users. -/
def respond_to_info_request (db : DB) (d : InfoRequestResponseCreate) (cu : User) :
    Except HTTPError (DB × InfoRequest) :=
  match db.findInfoRequest d.info_request_id with
  | none => .error ⟨404, "Lisätietopyyntöä ei löytynyt"⟩
  | some ir =>
  match db.findApplication ir.application_id with
  | none => .error ⟨500, "Internal Server Error"⟩
  | some app =>
  if cu.role = UserRole.CUSTOMER ∧ app.customer_id ≠ cu.id then
    .error ⟨403, "Ei käyttöoikeutta"⟩
  else if cu.role = UserRole.FINANCIER ∧ some ir.financier_id ≠ cu.financier_id then
    .error ⟨403, "Ei käyttöoikeutta"⟩
  else
    let resp : InfoRequestResponseRow :=
      { info_request_id := ir.id, user_id := cu.id,
        message := d.message, attachments := d.attachment_ids }
    let db1 : DB := { db with
      info_request_responses := db.info_request_responses ++ [resp],
      info_requests := updateById InfoRequest.id db.info_requests ir.id
        (fun x => { x with status := InfoRequestStatus.RESPONDED }) }
    let db2 : DB :=
      if cu.role = UserRole.CUSTOMER then
        let fuids := (db1.activeFinancierUsers ir.financier_id).map (·.id)
        { db1 with notifications := (db1.notifications ++
            notifyInfoProvided fuids app.id app.reference_number) }
      else db1
    .ok (db2, { ir with status := InfoRequestStatus.RESPONDED })

/-- The field loop of `update_application`: every supplied field is
written onto the row; `status` is skipped when the caller is a customer
("Customers cannot change status"), applied otherwise. -/
def applyApplicationUpdate (app : Application) (u : ApplicationUpdate)
    (isCustomer : Bool) : Application :=
  { app with
    company_name := u.company_name.getD app.company_name,
    business_id := u.business_id.getD app.business_id,
    contact_person := match u.contact_person with
      | some v => some v
      | none => app.contact_person,
    contact_email := u.contact_email.getD app.contact_email,
    contact_phone := match u.contact_phone with
      | some v => some v
      | none => app.contact_phone,
    street_address := match u.street_address with
      | some v => some v
      | none => app.street_address,
    postal_code := match u.postal_code with
      | some v => some v
      | none => app.postal_code,
    city := match u.city with
      | some v => some v
      | none => app.city,
    equipment_description := u.equipment_description.getD app.equipment_description,
    equipment_supplier := match u.equipment_supplier with
      | some v => some v
      | none => app.equipment_supplier,
    equipment_price := u.equipment_price.getD app.equipment_price,
    equipment_age_months := match u.equipment_age_months with
      | some v => some v
      | none => app.equipment_age_months,
    equipment_serial_number := match u.equipment_serial_number with
      | some v => some v
      | none => app.equipment_serial_number,
    original_purchase_price := match u.original_purchase_price with
      | some v => some v
      | none => app.original_purchase_price,
    current_value := match u.current_value with
      | some v => some v
      | none => app.current_value,
    requested_term_months := match u.requested_term_months with
      | some v => some v
      | none => app.requested_term_months,
    requested_residual_value := match u.requested_residual_value with
      | some v => some v
      | none => app.requested_residual_value,
    additional_info := match u.additional_info with
      | some v => some v
      | none => app.additional_info,
    status := if isCustomer then app.status else u.status.getD app.status }

/-- Route `PUT /applications/{application_id}` — `update_application` in
`app/routes/applications.py`.  Any authenticated role.  Only a CUSTOMER
caller is checked: ownership (403) and that the status is one of DRAFT,
SUBMITTED, INFO_REQUESTED (400); no check of any kind is made for
FINANCIER or ADMIN callers.  The field loop then writes every supplied
field, skipping `status` only for customers. -/
def update_application (db : DB) (application_id : Nat) (u : ApplicationUpdate)
    (cu : User) : Except HTTPError (DB × Application) :=
  match db.findApplication application_id with
  | none => .error ⟨404, "Hakemusta ei löytynyt"⟩
  | some app =>
  if cu.role = UserRole.CUSTOMER ∧ app.customer_id ≠ cu.id then
    .error ⟨403, "Ei käyttöoikeutta"⟩
  else if cu.role = UserRole.CUSTOMER ∧
      ¬(app.status = ApplicationStatus.DRAFT ∨ app.status = ApplicationStatus.SUBMITTED ∨
        app.status = ApplicationStatus.INFO_REQUESTED) then
    .error ⟨400, "Hakemusta ei voi enää muokata tässä tilassa"⟩
  else
    let app' := applyApplicationUpdate app u (cu.role = UserRole.CUSTOMER)
    let db1 : DB := { db with
      applications := updateById Application.id db.applications application_id
        (fun a => applyApplicationUpdate a u (cu.role = UserRole.CUSTOMER)) }
    .ok (db1, app')

/-- Updating the row with key `i` moves a successful lookup at `i` to the
updated row, provided the update keeps the key. -/
theorem findById_updateById_same {α : Type} (getId : α → Nat) (l : List α) (i : Nat)
    (f : α → α) (hpres : ∀ y, getId (f y) = getId y) (x : α)
    (hx : findById getId l i = some x) :
    findById getId (updateById getId l i f) i = some (f x) := by
  induction l with
  | nil => simp [findById] at hx
  | cons a t ih =>
    simp only [findById, updateById, List.map_cons] at *
    by_cases h : getId a = i
    · rw [List.find?_cons_of_pos _ (by simp [h])] at hx
      injection hx with hx
      subst hx
      rw [if_pos (by simp [h])]
      exact List.find?_cons_of_pos _ (by simp [hpres, h])
    · rw [List.find?_cons_of_neg _ (by simp [h])] at hx
      rw [if_neg (by simp [h])]
      rw [List.find?_cons_of_neg _ (by simp [h])]
      exact ih hx

/-- A found row satisfies the key predicate. -/
theorem findById_eq_id {α : Type} (getId : α → Nat) (l : List α) (i : Nat) (x : α)
    (hx : findById getId l i = some x) : getId x = i := by
  have := List.find?_some hx
  simpa using this

/-- Test fixture: the customer who owns application 1. -/
def custUser : User :=
  { id := 1, email := "asiakas@example.com", role := UserRole.CUSTOMER,
    first_name := some "Matti", last_name := some "Meikalainen",
    company_name := some "Yritys Oy", financier_id := none, is_active := true }

/-- Test fixture: the admin. -/
def adminUser : User :=
  { id := 2, email := "admin@example.com", role := UserRole.ADMIN,
    first_name := none, last_name := none, company_name := none,
    financier_id := none, is_active := true }

/-- Test fixture: an active user of financier 1. -/
def finUser : User :=
  { id := 3, email := "rahoittaja@example.com", role := UserRole.FINANCIER,
    first_name := none, last_name := none, company_name := none,
    financier_id := some 1, is_active := true }

/-- Test fixture: financier organization 1, active. -/
def fin1 : Financier :=
  { id := 1, name := "Rahoitus Oy", email := "info@rahoitus.fi", phone := none,
    address := none, business_id := some "1234567-8", is_active := true, notes := none }

/-- Test fixture: application 1 owned by customer 1, in a given status. -/
def app1 (st : ApplicationStatus) : Application :=
  { id := 1, reference_number := "LEA-2025-12345", status := st, customer_id := 1,
    company_name := "Yritys Oy", business_id := "1234567-8", contact_person := none,
    contact_email := "asiakas@example.com", contact_phone := none,
    street_address := none, postal_code := none, city := none,
    equipment_description := "Kaivinkone", equipment_supplier := none,
    equipment_price := 15000, equipment_age_months := none,
    equipment_serial_number := none, original_purchase_price := none,
    current_value := none, requested_term_months := none,
    requested_residual_value := none, additional_info := none }

/-- Test fixture: assignment of application 1 to financier 1. -/
def asg1 : ApplicationAssignment :=
  { id := 1, application_id := 1, financier_id := 1,
    status := AssignmentStatus.PENDING, notes := none, assigned_by_id := 2 }

/-- Test fixture: offer 1 by financier 1 on application 1 with
`monthly_payment = 450`, `term_months = 36`, `residual_value = 1000`, in a
given status. -/
def offer1 (st : OfferStatus) : Offer :=
  { id := 1, application_id := 1, financier_id := 1, monthly_payment := 450,
    term_months := 36, upfront_payment := none, residual_value := some 1000,
    interest_or_margin := none, included_services := none,
    notes_to_customer := none, internal_notes := none, status := st,
    attachment_file_id := none, sent_at := none, responded_at := none,
    expires_at := none }

/-- Test fixture: world for the accept-offer scenario — customer 1 owns
application 1 (status OFFER_SENT), financier 1 has sent offer 1 (status
SENT). -/
def dbC1 : DB :=
  { users := [custUser, finUser], financiers := [fin1],
    applications := [app1 ApplicationStatus.OFFER_SENT], assignments := [asg1],
    offers := [offer1 OfferStatus.SENT], contracts := [], info_requests := [],
    info_request_responses := [], notifications := [] }

/-- C1.  The customer accept operation (`accept_offer`) succeeds only when
the offer's status is SENT and the acting customer owns the offer's
application: any other status fails with the InvalidState error (400,
"Tarjousta ei voi hyväksyä tässä tilassa") and a non-owner fails with 403.
On success the offer's status becomes ACCEPTED with `responded_at`
stamped, and the application's status becomes OFFER_ACCEPTED.  Invoking
accept on the same offer a second time (status now ACCEPTED, not SENT)
fails with the same InvalidState error; an error result carries no state
change, so offer and application are left unchanged. -/
theorem accept_offer_spec (db : DB) (oid : Nat) (cu : User) (now now2 : Nat)
    (offer : Offer) (app : Application) (fin : Financier)
    (hrole : cu.role = UserRole.CUSTOMER)
    (hoff : db.findOffer oid = some offer)
    (happ : db.findApplication offer.application_id = some app)
    (hfin : db.findFinancier offer.financier_id = some fin) :
    (offer.status ≠ OfferStatus.SENT →
      accept_offer db oid cu now =
        .error ⟨400, "Tarjousta ei voi hyväksyä tässä tilassa"⟩) ∧
    (offer.status = OfferStatus.SENT → app.customer_id ≠ cu.id →
      accept_offer db oid cu now = .error ⟨403, "Ei käyttöoikeutta"⟩) ∧
    (offer.status = OfferStatus.SENT → app.customer_id = cu.id →
      ∃ db2, accept_offer db oid cu now = .ok (db2, "Tarjous hyväksytty") ∧
        db2.findOffer oid =
          some { offer with status := OfferStatus.ACCEPTED, responded_at := some now } ∧
        db2.findApplication offer.application_id =
          some { app with status := ApplicationStatus.OFFER_ACCEPTED } ∧
        accept_offer db2 oid cu now2 =
          .error ⟨400, "Tarjousta ei voi hyväksyä tässä tilassa"⟩) := by
  have hoff' : findById Offer.id db.offers oid = some offer := hoff
  have happ' : findById Application.id db.applications offer.application_id = some app := happ
  have hfin' : findById Financier.id db.financiers offer.financier_id = some fin := hfin
  refine ⟨?_, ?_, ?_⟩
  · intro hns
    simp [accept_offer, requireRole, hrole, hoff, hns]
  · intro hs hown
    simp [accept_offer, requireRole, hrole, hoff, hs, happ, hown]
  · intro hs hown
    have hoffers : findById Offer.id
        (updateById Offer.id db.offers oid
          (fun o => { o with status := OfferStatus.ACCEPTED, responded_at := some now })) oid =
        some { offer with status := OfferStatus.ACCEPTED, responded_at := some now } :=
      findById_updateById_same Offer.id db.offers oid
        (fun o => { o with status := OfferStatus.ACCEPTED, responded_at := some now })
        (fun y => rfl) offer hoff
    have happs : findById Application.id
        (updateById Application.id db.applications offer.application_id
          (fun a => { a with status := ApplicationStatus.OFFER_ACCEPTED }))
          offer.application_id =
        some { app with status := ApplicationStatus.OFFER_ACCEPTED } :=
      findById_updateById_same Application.id db.applications offer.application_id
        (fun a => { a with status := ApplicationStatus.OFFER_ACCEPTED })
        (fun y => rfl) app happ
    refine ⟨{ db with
        offers := updateById Offer.id db.offers oid
          (fun o => { o with status := OfferStatus.ACCEPTED, responded_at := some now }),
        applications := updateById Application.id db.applications offer.application_id
          (fun a => { a with status := ApplicationStatus.OFFER_ACCEPTED }),
        notifications := db.notifications ++
          notifyOfferAccepted
            ((db.users.filter (fun u => u.financier_id == some fin.id && u.is_active)).map (·.id))
            app.id app.reference_number app.company_name },
      ?_, ?_, ?_, ?_⟩
    · simp [accept_offer, requireRole, hrole, hoff, hs, happ, hown, hoff', happ', hfin',
        DB.findOffer, DB.findApplication, DB.findFinancier, DB.activeFinancierUsers]
    · exact hoffers
    · exact happs
    · simp [accept_offer, requireRole, hrole, DB.findOffer, hoffers]

/-- C1 witness: concrete run in `dbC1` — customer 1 accepts offer 1 at
time 5; a second accept at time 6 fails with the InvalidState error. -/
theorem accept_offer_spec_witness :
    ∃ db2, accept_offer dbC1 1 custUser 5 = .ok (db2, "Tarjous hyväksytty") ∧
      db2.findOffer 1 =
        some { offer1 OfferStatus.SENT with
                status := OfferStatus.ACCEPTED, responded_at := some 5 } ∧
      db2.findApplication (offer1 OfferStatus.SENT).application_id =
        some { app1 ApplicationStatus.OFFER_SENT with
                status := ApplicationStatus.OFFER_ACCEPTED } ∧
      accept_offer db2 1 custUser 6 =
        .error ⟨400, "Tarjousta ei voi hyväksyä tässä tilassa"⟩ :=
  (accept_offer_spec dbC1 1 custUser 5 6 (offer1 OfferStatus.SENT)
    (app1 ApplicationStatus.OFFER_SENT) fin1 rfl rfl rfl rfl).2.2 rfl rfl

/-- Number of assignment rows for one (application, financier) pair. -/
def pairCount (l : List ApplicationAssignment) (ai fi : Nat) : Nat :=
  l.countP (fun a => a.application_id == ai && a.financier_id == fi)

/-- Uniqueness invariant of §3: no two Assignment rows share the same
(application_id, financier_id). -/
def assignmentsUnique (db : DB) : Prop :=
  ∀ ai fi, pairCount db.assignments ai fi ≤ 1

/-- Inversion of a successful `assign_to_financier`: the duplicate check
found nothing, exactly one new row was appended, and it carries the
requested pair. -/
theorem assign_ok_state (db : DB) (d : AssignmentCreate) (cu : User) (db2 : DB)
    (asg : ApplicationAssignment)
    (h : assign_to_financier db d cu = .ok (db2, asg)) :
    db.assignments.filter (fun a =>
      a.application_id == d.application_id && a.financier_id == d.financier_id) = [] ∧
    db2.assignments = db.assignments ++ [asg] ∧
    asg.application_id = d.application_id ∧ asg.financier_id = d.financier_id := by
  unfold assign_to_financier at h
  split at h
  · cases h
  · split at h
    · cases h
    · split at h
      · cases h
      · split at h
        · cases h
        · split at h
          · cases h
          · cases h
          · rename_i hfilt
            injection h with h1
            rw [Prod.mk.injEq] at h1
            obtain ⟨h2, h3⟩ := h1
            subst h2
            subst h3
            exact ⟨hfilt, rfl, rfl, rfl⟩

/-- Test fixture: world for the assign scenario — application 1 is
already SIGNED, financier 1 active, no assignments yet. -/
def dbC2 : DB :=
  { users := [custUser, adminUser, finUser], financiers := [fin1],
    applications := [app1 ApplicationStatus.SIGNED], assignments := [],
    offers := [], contracts := [], info_requests := [],
    info_request_responses := [], notifications := [] }

/-- C2.  A successful `assign_to_financier` (application exists, financier
exists and is active, no prior assignment for the pair) creates an
Assignment row with status PENDING and sets the application's status to
SUBMITTED_TO_FINANCIER unconditionally: the prior status `app.status` is
arbitrary here — including statuses later than SUBMITTED_TO_FINANCIER
such as SIGNED — and the status after the call is always
SUBMITTED_TO_FINANCIER. -/
theorem assign_sets_submitted_to_financier (db : DB) (d : AssignmentCreate) (cu : User)
    (app : Application) (fin : Financier)
    (hrole : cu.role = UserRole.ADMIN)
    (happ : db.findApplication d.application_id = some app)
    (hfin : db.findFinancier d.financier_id = some fin)
    (hact : fin.is_active = true)
    (hnodup : db.assignments.filter (fun a =>
      a.application_id == d.application_id && a.financier_id == d.financier_id) = []) :
    ∃ db2 asg, assign_to_financier db d cu = .ok (db2, asg) ∧
      asg.status = AssignmentStatus.PENDING ∧
      asg.application_id = d.application_id ∧
      asg.financier_id = d.financier_id ∧
      db2.assignments = db.assignments ++ [asg] ∧
      db2.findApplication d.application_id =
        some { app with status := ApplicationStatus.SUBMITTED_TO_FINANCIER } := by
  have happ' : findById Application.id db.applications d.application_id = some app := happ
  have hfin' : findById Financier.id db.financiers d.financier_id = some fin := hfin
  have happs : findById Application.id
      (updateById Application.id db.applications d.application_id
        (fun a => { a with status := ApplicationStatus.SUBMITTED_TO_FINANCIER }))
        d.application_id =
      some { app with status := ApplicationStatus.SUBMITTED_TO_FINANCIER } :=
    findById_updateById_same Application.id db.applications d.application_id
      (fun a => { a with status := ApplicationStatus.SUBMITTED_TO_FINANCIER })
      (fun y => rfl) app happ
  refine ⟨{ db with
      assignments := db.assignments ++
        [{ id := freshId (db.assignments.map (·.id)),
           application_id := d.application_id,
           financier_id := d.financier_id,
           status := AssignmentStatus.PENDING,
           notes := d.notes,
           assigned_by_id := cu.id }],
      applications := updateById Application.id db.applications d.application_id
        (fun a => { a with status := ApplicationStatus.SUBMITTED_TO_FINANCIER }),
      notifications := db.notifications ++
        (notifySentToFinancier app.customer_id
          ((db.users.filter (fun u => u.financier_id == some fin.id && u.is_active)).map (·.id))
          app.id app.reference_number fin.name) },
    { id := freshId (db.assignments.map (·.id)),
      application_id := d.application_id,
      financier_id := d.financier_id,
      status := AssignmentStatus.PENDING,
      notes := d.notes,
      assigned_by_id := cu.id },
    ?_, rfl, rfl, rfl, rfl, happs⟩
  simp [assign_to_financier, requireRole, hrole, happ', hfin', hact, hnodup,
    DB.findApplication, DB.findFinancier, DB.activeFinancierUsers]

/-- C2 witness: concrete run in `dbC2` — the application is already
SIGNED, yet assigning it to financier 1 succeeds and forces its status
back to SUBMITTED_TO_FINANCIER. -/
theorem assign_sets_submitted_to_financier_witness :
    ∃ db2 asg,
      assign_to_financier dbC2 ⟨1, 1, none⟩ adminUser = .ok (db2, asg) ∧
      asg.status = AssignmentStatus.PENDING ∧
      asg.application_id = 1 ∧
      asg.financier_id = 1 ∧
      db2.assignments = dbC2.assignments ++ [asg] ∧
      db2.findApplication 1 =
        some { app1 ApplicationStatus.SIGNED with
                status := ApplicationStatus.SUBMITTED_TO_FINANCIER } :=
  assign_sets_submitted_to_financier dbC2 ⟨1, 1, none⟩ adminUser
    (app1 ApplicationStatus.SIGNED) fin1 rfl rfl rfl rfl rfl

/-- Test fixture: world for the duplicate-assign scenario — application 1
is already assigned to financier 1. -/
def dbC5 : DB :=
  { users := [custUser, adminUser, finUser], financiers := [fin1],
    applications := [app1 ApplicationStatus.SUBMITTED_TO_FINANCIER],
    assignments := [asg1], offers := [], contracts := [], info_requests := [],
    info_request_responses := [], notifications := [] }

/-- C5.  When an Assignment row for the (application, financier) pair
already exists, the assign call fails as a duplicate (400, "Hakemus on jo
lähetetty tälle rahoittajalle") — an error result carries no state, so no
second row is created and nothing changes.  Moreover the assign operation
preserves the at-most-one-row-per-pair invariant: any successful call
starts from a state with no row for its pair and appends exactly one. -/
theorem assign_duplicate_rejected (db : DB) (d : AssignmentCreate) (cu : User) :
    (∀ app fin a, cu.role = UserRole.ADMIN →
      db.findApplication d.application_id = some app →
      db.findFinancier d.financier_id = some fin →
      fin.is_active = true →
      db.assignments.filter (fun x =>
        x.application_id == d.application_id && x.financier_id == d.financier_id) = [a] →
      assign_to_financier db d cu =
        .error ⟨400, "Hakemus on jo lähetetty tälle rahoittajalle"⟩) ∧
    (∀ db2 asg, assignmentsUnique db →
      assign_to_financier db d cu = .ok (db2, asg) → assignmentsUnique db2) := by
  constructor
  · intro app fin a hrole happ hfin hact hdup
    have happ' : findById Application.id db.applications d.application_id = some app := happ
    have hfin' : findById Financier.id db.financiers d.financier_id = some fin := hfin
    simp [assign_to_financier, requireRole, hrole, happ', hfin', hact, hdup,
      DB.findApplication, DB.findFinancier]
  · intro db2 asg huniq hok ai fi
    obtain ⟨hfilt, happend, hai, hfi⟩ := assign_ok_state db d cu db2 asg hok
    rw [pairCount, happend, List.countP_append]
    by_cases hmatch : ai = d.application_id ∧ fi = d.financier_id
    · have hc0 : db.assignments.countP
          (fun a => a.application_id == ai && a.financier_id == fi) = 0 := by
        have := congrArg List.length hfilt
        rw [List.countP_eq_length_filter]
        rw [hmatch.1, hmatch.2]
        simpa using this
      have hone : List.countP
          (fun a => a.application_id == ai && a.financier_id == fi) [asg] ≤ 1 := by
        simp only [List.countP_cons, List.countP_nil, Nat.zero_add]
        split <;> simp
      omega
    · have hzero : List.countP
          (fun a => a.application_id == ai && a.financier_id == fi) [asg] = 0 := by
        have hfalse : (asg.application_id == ai && asg.financier_id == fi) = false := by
          rw [hai, hfi]
          rcases not_and_or.mp hmatch with h | h
          · have hb : (d.application_id == ai) = false := by
              simpa using fun hh => h hh.symm
            simp [hb]
          · have hb : (d.financier_id == fi) = false := by
              simpa using fun hh => h hh.symm
            simp [hb]
        simp [List.countP_cons, hfalse]
      have := huniq ai fi
      rw [pairCount] at this
      omega

/-- C5 witness: concrete duplicate assign in `dbC5` — application 1 is
already assigned to financier 1, so assigning again fails with 400. -/
theorem assign_duplicate_rejected_witness :
    assign_to_financier dbC5 ⟨1, 1, none⟩ adminUser =
      .error ⟨400, "Hakemus on jo lähetetty tälle rahoittajalle"⟩ :=
  (assign_duplicate_rejected dbC5 ⟨1, 1, none⟩ adminUser).1
    (app1 ApplicationStatus.SUBMITTED_TO_FINANCIER) fin1 asg1 rfl rfl rfl rfl rfl

/-- C9.  A customer updating their own application while its status is in
{DRAFT, SUBMITTED, INFO_REQUESTED} succeeds for any update payload `u` —
in particular one that includes a `status` value — and the supplied
status is silently ignored: the stored application keeps its old status,
while the other supplied fields (e.g. `company_name`,
`equipment_price`) are applied. -/
theorem update_application_customer_ignores_status (db : DB) (aid : Nat)
    (u : ApplicationUpdate) (cu : User) (app : Application)
    (hrole : cu.role = UserRole.CUSTOMER)
    (happ : db.findApplication aid = some app)
    (hown : app.customer_id = cu.id)
    (hst : app.status = ApplicationStatus.DRAFT ∨
      app.status = ApplicationStatus.SUBMITTED ∨
      app.status = ApplicationStatus.INFO_REQUESTED) :
    ∃ db2 app2, update_application db aid u cu = .ok (db2, app2) ∧
      app2.status = app.status ∧
      db2.findApplication aid = some app2 ∧
      (∀ v, u.company_name = some v → app2.company_name = v) ∧
      (∀ v, u.equipment_price = some v → app2.equipment_price = v) := by
  have happ' : findById Application.id db.applications aid = some app := happ
  refine ⟨{ db with
      applications := updateById Application.id db.applications aid
        (fun a => applyApplicationUpdate a u (cu.role = UserRole.CUSTOMER)) },
    applyApplicationUpdate app u (cu.role = UserRole.CUSTOMER),
    ?_, ?_, ?_, ?_, ?_⟩
  · simp [update_application, hrole, happ', hown, hst, DB.findApplication]
  · simp [applyApplicationUpdate, hrole]
  · exact findById_updateById_same Application.id db.applications aid
      (fun a => applyApplicationUpdate a u (cu.role = UserRole.CUSTOMER))
      (fun y => rfl) app happ
  · intro v hv
    simp [applyApplicationUpdate, hv]
  · intro v hv
    simp [applyApplicationUpdate, hv]

/-- Test fixture: world for the customer-update scenario — application 1
in SUBMITTED, owned by customer 1. -/
def dbC9 : DB :=
  { users := [custUser], financiers := [], applications := [app1 ApplicationStatus.SUBMITTED],
    assignments := [], offers := [], contracts := [], info_requests := [],
    info_request_responses := [], notifications := [] }

/-- C9 witness: concrete run in `dbC9` — the customer's payload carries
`status = SIGNED` and `company_name = "Uusi Oy"`; the update succeeds,
the company name is applied, the status stays SUBMITTED. -/
theorem update_application_customer_ignores_status_witness :
    ∃ db2 app2,
      update_application dbC9 1
        { company_name := some "Uusi Oy", status := some ApplicationStatus.SIGNED }
        custUser = .ok (db2, app2) ∧
      app2.status = (app1 ApplicationStatus.SUBMITTED).status ∧
      db2.findApplication 1 = some app2 ∧
      (∀ v, ({ company_name := some "Uusi Oy",
               status := some ApplicationStatus.SIGNED } : ApplicationUpdate).company_name
          = some v → app2.company_name = v) ∧
      (∀ v, ({ company_name := some "Uusi Oy",
               status := some ApplicationStatus.SIGNED } : ApplicationUpdate).equipment_price
          = some v → app2.equipment_price = v) :=
  update_application_customer_ignores_status dbC9 1
    { company_name := some "Uusi Oy", status := some ApplicationStatus.SIGNED }
    custUser (app1 ApplicationStatus.SUBMITTED) rfl rfl rfl (Or.inr (Or.inl rfl))

/-- C10.  For a FINANCIER caller, `update_application` performs no
ownership, assignment or status check at all: the only hypotheses needed
for success are that the application exists and the caller's role is
FINANCIER — the financier need not be assigned to the application and the
application may be in any status — and, unlike for customers, a supplied
`status` field is applied (`u.status.getD app.status`). -/
theorem update_application_financier_unchecked (db : DB) (aid : Nat)
    (u : ApplicationUpdate) (cu : User) (app : Application)
    (hrole : cu.role = UserRole.FINANCIER)
    (happ : db.findApplication aid = some app) :
    ∃ db2 app2, update_application db aid u cu = .ok (db2, app2) ∧
      db2.findApplication aid = some app2 ∧
      app2.status = u.status.getD app.status := by
  have happ' : findById Application.id db.applications aid = some app := happ
  refine ⟨{ db with
      applications := updateById Application.id db.applications aid
        (fun a => applyApplicationUpdate a u (cu.role = UserRole.CUSTOMER)) },
    applyApplicationUpdate app u (cu.role = UserRole.CUSTOMER),
    ?_, ?_, ?_⟩
  · simp [update_application, hrole, happ', DB.findApplication]
  · exact findById_updateById_same Application.id db.applications aid
      (fun a => applyApplicationUpdate a u (cu.role = UserRole.CUSTOMER))
      (fun y => rfl) app happ
  · simp [applyApplicationUpdate, hrole]

/-- Test fixture: world for the financier-update scenario — application 1
is SIGNED and there is no assignment linking financier 1 to it. -/
def dbC10 : DB :=
  { users := [custUser, finUser], financiers := [fin1],
    applications := [app1 ApplicationStatus.SIGNED], assignments := [],
    offers := [], contracts := [], info_requests := [],
    info_request_responses := [], notifications := [] }

/-- C10 witness: concrete run in `dbC10` — financier user 3 is not
assigned to application 1, which is already SIGNED; the update succeeds
anyway and the supplied status CANCELLED is applied. -/
theorem update_application_financier_unchecked_witness :
    ∃ db2 app2,
      update_application dbC10 1 { status := some ApplicationStatus.CANCELLED } finUser
        = .ok (db2, app2) ∧
      db2.findApplication 1 = some app2 ∧
      app2.status = ({ status := some ApplicationStatus.CANCELLED } :
        ApplicationUpdate).status.getD (app1 ApplicationStatus.SIGNED).status :=
  update_application_financier_unchecked dbC10 1
    { status := some ApplicationStatus.CANCELLED } finUser
    (app1 ApplicationStatus.SIGNED) rfl rfl

/-- Test fixture: world for the hidden-offer scenario — offer 1 is a
DRAFT on application 1 (owned by customer 1). -/
def dbC6 : DB :=
  { users := [custUser, finUser], financiers := [fin1],
    applications := [app1 ApplicationStatus.SUBMITTED_TO_FINANCIER],
    assignments := [asg1], offers := [offer1 OfferStatus.DRAFT], contracts := [],
    info_requests := [], info_request_responses := [], notifications := [] }

/-- C6.  A customer request never returns an offer in DRAFT or
PENDING_ADMIN: the per-application offer list of the owning customer
excludes it, and a direct fetch of it by id is rejected with 403
("Ei käyttöoikeutta") rather than returning the offer. -/
theorem customer_never_sees_hidden_offers (db : DB) (oid : Nat) (cu : User)
    (offer : Offer) (app : Application)
    (hrole : cu.role = UserRole.CUSTOMER)
    (hoff : db.findOffer oid = some offer)
    (happ : db.findApplication offer.application_id = some app)
    (hown : app.customer_id = cu.id)
    (hhid : offer.status = OfferStatus.DRAFT ∨ offer.status = OfferStatus.PENDING_ADMIN) :
    (∀ l, get_application_offers db offer.application_id cu = .ok l → offer ∉ l) ∧
    get_offer db oid cu = .error ⟨403, "Ei käyttöoikeutta"⟩ := by
  have hoff' : findById Offer.id db.offers oid = some offer := hoff
  have happ' : findById Application.id db.applications offer.application_id = some app := happ
  constructor
  · intro l hl
    simp only [get_application_offers, DB.findApplication] at hl
    rw [happ'] at hl
    simp only [hrole, if_pos rfl, hown, ne_eq, not_true_eq_false, if_false] at hl
    injection hl with hl
    intro hmem
    rw [← hl] at hmem
    have hp := (List.mem_filter.mp hmem).2
    rcases hhid with h | h <;> simp [h] at hp
  · rcases hhid with h | h <;>
      simp [get_offer, DB.findOffer, DB.findApplication, hoff', happ', hrole, hown, h]

/-- C6 witness: concrete run in `dbC6` — the owning customer's offer list
for application 1 omits the DRAFT offer, and fetching it directly yields
403. -/
theorem customer_never_sees_hidden_offers_witness :
    (∀ l, get_application_offers dbC6 (offer1 OfferStatus.DRAFT).application_id custUser
        = .ok l → offer1 OfferStatus.DRAFT ∉ l) ∧
    get_offer dbC6 1 custUser = .error ⟨403, "Ei käyttöoikeutta"⟩ :=
  customer_never_sees_hidden_offers dbC6 1 custUser (offer1 OfferStatus.DRAFT)
    (app1 ApplicationStatus.SUBMITTED_TO_FINANCIER) rfl rfl rfl rfl (Or.inl rfl)

/-- Test fixture: a contract of financier 1 on application 1 with the
given status, lessee company name and monthly rent; every other nullable
field empty. -/
def contract1 (st : ContractStatus) (name : Option String) (rent : Option ℚ) : Contract :=
  { id := 1, contract_number := some "A000123456", application_id := 1,
    financier_id := 1, offer_id := some 1,
    lessee_company_name := name, lessee_business_id := some "1234567-8",
    lessee_street_address := none, lessee_postal_code := none, lessee_city := none,
    lessee_country := some "Finland", lessee_contact_person := none,
    lessee_phone := none, lessee_email := some "asiakas@example.com",
    lessee_tax_country := some "Suomi",
    lessor_company_name := some "Rahoitus Oy", lessor_business_id := some "1234567-8",
    lessor_street_address := none, lessor_postal_code := none, lessor_city := none,
    seller_company_name := none, seller_business_id := none,
    seller_street_address := none, seller_postal_code := none, seller_city := none,
    seller_contact_person := none, seller_phone := none, seller_email := none,
    seller_tax_country := some "Suomi",
    lease_objects := none, usage_location := some "Suomi",
    delivery_method := none, estimated_delivery_date := none,
    other_delivery_terms := none,
    advance_payment := none, monthly_rent := rent, rent_installments_count := some 36,
    rent_installments_start := some 1, rent_installments_end := some 36,
    residual_value := some 1000, processing_fee := some 500,
    arrangement_fee := some 10, invoicing_method := some "E-Lasku",
    lease_period_months := some 36, lease_start_date := none,
    insurance_type := none, insurance_provider := none,
    insurance_policy_number := none, bank_name := none, bank_iban := none,
    bank_bic := none, guarantees := none, guarantee_type := none,
    special_conditions := none, logo_file_id := none,
    message_to_customer := none, internal_notes := none,
    contract_file_id := none, signed_file_id := none,
    lessee_signature_date := none, lessee_signature_place := none,
    lessee_signer_name := none, lessor_signature_date := none,
    lessor_signature_place := none, lessor_signer_name := none,
    status := st, sent_at := none, signed_at := none }

/-- C7.  The contract send operation succeeds only from DRAFT with both
`lessee_company_name` and `monthly_rent` populated (truthy): a non-DRAFT
contract fails with 400 "Sopimus on jo lähetetty", a missing lessee
company name fails with the ValidationFailure 400 "Vuokralleottajan
tiedot puuttuvat", a missing monthly rent with 400 "Vuokraerä puuttuu" —
each error carries no state, so nothing changes.  On success the contract
becomes SENT with `sent_at = now` and the application becomes
CONTRACT_SENT. -/
theorem send_contract_spec (db : DB) (cid : Nat) (cu : User) (now : Nat)
    (c : Contract) (app : Application) (cust : User)
    (hrole : cu.role = UserRole.FINANCIER)
    (hc : db.findContract cid = some c)
    (hownc : cu.financier_id = some c.financier_id)
    (happ : db.findApplication c.application_id = some app)
    (hcust : db.findUser app.customer_id = some cust) :
    (c.status ≠ ContractStatus.DRAFT →
      send_contract db cid cu now = .error ⟨400, "Sopimus on jo lähetetty"⟩) ∧
    (c.status = ContractStatus.DRAFT → truthyS c.lessee_company_name = false →
      send_contract db cid cu now = .error ⟨400, "Vuokralleottajan tiedot puuttuvat"⟩) ∧
    (c.status = ContractStatus.DRAFT → truthyS c.lessee_company_name = true →
      truthyQ c.monthly_rent = false →
      send_contract db cid cu now = .error ⟨400, "Vuokraerä puuttuu"⟩) ∧
    (c.status = ContractStatus.DRAFT → truthyS c.lessee_company_name = true →
      truthyQ c.monthly_rent = true →
      ∃ db2, send_contract db cid cu now =
          .ok (db2, { c with status := ContractStatus.SENT, sent_at := some now }) ∧
        db2.findContract cid =
          some { c with status := ContractStatus.SENT, sent_at := some now } ∧
        db2.findApplication c.application_id =
          some { app with status := ApplicationStatus.CONTRACT_SENT }) := by
  have hc' : findById Contract.id db.contracts cid = some c := hc
  have happ' : findById Application.id db.applications c.application_id = some app := happ
  have hcust' : findById User.id db.users app.customer_id = some cust := hcust
  refine ⟨?_, ?_, ?_, ?_⟩
  · intro hns
    simp [send_contract, requireRole, hrole, hc', hownc.symm, hns, DB.findContract]
  · intro hdr hname
    simp [send_contract, requireRole, hrole, hc', hownc.symm, hdr, hname, DB.findContract]
  · intro hdr hname hrent
    simp [send_contract, requireRole, hrole, hc', hownc.symm, hdr, hname, hrent,
      DB.findContract]
  · intro hdr hname hrent
    have hcontracts : findById Contract.id
        (updateById Contract.id db.contracts cid
          (fun x => { x with status := ContractStatus.SENT, sent_at := some now })) cid =
        some { c with status := ContractStatus.SENT, sent_at := some now } :=
      findById_updateById_same Contract.id db.contracts cid
        (fun x => { x with status := ContractStatus.SENT, sent_at := some now })
        (fun y => rfl) c hc
    have happs : findById Application.id
        (updateById Application.id db.applications c.application_id
          (fun a => { a with status := ApplicationStatus.CONTRACT_SENT }))
          c.application_id =
        some { app with status := ApplicationStatus.CONTRACT_SENT } :=
      findById_updateById_same Application.id db.applications c.application_id
        (fun a => { a with status := ApplicationStatus.CONTRACT_SENT })
        (fun y => rfl) app happ
    refine ⟨{ db with
        contracts := updateById Contract.id db.contracts cid
          (fun x => { x with status := ContractStatus.SENT, sent_at := some now }),
        applications := updateById Application.id db.applications c.application_id
          (fun a => { a with status := ApplicationStatus.CONTRACT_SENT }),
        notifications := db.notifications ++
          (notifyContractSent cust.id app.id app.reference_number) },
      ?_, hcontracts, happs⟩
    simp [send_contract, requireRole, hrole, hc', hownc.symm, hdr, hname, hrent,
      happ', hcust', DB.findContract, DB.findApplication, DB.findUser]

/-- Test fixture: world for the contract-send scenario — DRAFT contract 1
with lessee company name and rent 450 present. -/
def dbC7 : DB :=
  { users := [custUser, finUser], financiers := [fin1],
    applications := [app1 ApplicationStatus.OFFER_ACCEPTED], assignments := [asg1],
    offers := [offer1 OfferStatus.ACCEPTED],
    contracts := [contract1 ContractStatus.DRAFT (some "Yritys Oy") (some 450)],
    info_requests := [], info_request_responses := [], notifications := [] }

/-- C7 witness: concrete run in `dbC7` — financier user 3 sends DRAFT
contract 1 at time 7; it becomes SENT and the application CONTRACT_SENT. -/
theorem send_contract_spec_witness :
    ∃ db2, send_contract dbC7 1 finUser 7 =
        .ok (db2, { contract1 ContractStatus.DRAFT (some "Yritys Oy") (some 450) with
                     status := ContractStatus.SENT, sent_at := some 7 }) ∧
      db2.findContract 1 =
        some { contract1 ContractStatus.DRAFT (some "Yritys Oy") (some 450) with
                status := ContractStatus.SENT, sent_at := some 7 } ∧
      db2.findApplication
          (contract1 ContractStatus.DRAFT (some "Yritys Oy") (some 450)).application_id =
        some { app1 ApplicationStatus.OFFER_ACCEPTED with
                status := ApplicationStatus.CONTRACT_SENT } :=
  (send_contract_spec dbC7 1 finUser 7
    (contract1 ContractStatus.DRAFT (some "Yritys Oy") (some 450))
    (app1 ApplicationStatus.OFFER_ACCEPTED) custUser
    rfl rfl rfl rfl rfl).2.2.2 rfl rfl rfl

/-- Test fixture: world for the contract-creation scenario — application
1 in OFFER_ACCEPTED, assigned to financier 1, whose offer 1 is ACCEPTED
with `monthly_payment = 450`, `term_months = 36`, `residual_value = 1000`. -/
def dbC8 : DB :=
  { users := [custUser, finUser], financiers := [fin1],
    applications := [app1 ApplicationStatus.OFFER_ACCEPTED], assignments := [asg1],
    offers := [offer1 OfferStatus.ACCEPTED], contracts := [], info_requests := [],
    info_request_responses := [], notifications := [] }

/-- C8.  Concrete pre-fill check: a contract created in `dbC8` referencing
accepted offer 1 (monthly_payment 450, term_months 36, residual_value
1000) with no explicit rent fields supplied gets
`monthly_rent = 450`, `lease_period_months = 36`, `residual_value = 1000`
from the offer. -/
theorem contract_prefill_from_accepted_offer :
    ∃ db2 c, create_contract dbC8 { application_id := 1, offer_id := some 1 }
        finUser "A000111222" = .ok (db2, c) ∧
      c.monthly_rent = some 450 ∧
      c.lease_period_months = some 36 ∧
      c.residual_value = some 1000 :=
  ⟨_, _, rfl, rfl, rfl, rfl⟩

/-- C3 counterexample: in `dbC8`, the caller explicitly supplies
`monthly_rent = 0` while accepted offer 1 carries 450; the created
contract's `monthly_rent` is 450, not the caller-supplied 0 — Python's
`or` treats the explicit 0 as absent, so the claim "an explicitly
caller-supplied value always ends up in the created contract, even when
it is 0" fails at this input. -/
theorem create_contract_zero_rent_loses :
    ∃ db2 c, create_contract dbC8
        { application_id := 1, offer_id := some 1, monthly_rent := some 0 }
        finUser "A000333444" = .ok (db2, c) ∧
      c.monthly_rent = some 450 ∧ c.monthly_rent ≠ some 0 :=
  ⟨_, _, rfl, rfl, by decide⟩

/-- C3 (amended).  In `create_contract` a caller-supplied truthy value
(non-zero number, non-empty string) always ends up in the created
contract, taking precedence over the offer/application pre-fill; but a
caller-supplied falsy value (`0`, `""`) is treated as absent by the
Python `or` chain and the pre-fill value wins instead — shown here for
`monthly_rent` given a referenced ACCEPTED offer. -/
theorem create_contract_caller_truthy_wins (db : DB) (d : ContractCreate) (cu : User)
    (cnum : String) (db2 : DB) (c : Contract)
    (hok : create_contract db d cu cnum = .ok (db2, c)) :
    (∀ v : ℚ, d.monthly_rent = some v → v ≠ 0 → c.monthly_rent = some v) ∧
    (∀ v : ℚ, d.advance_payment = some v → v ≠ 0 → c.advance_payment = some v) ∧
    (∀ v : ℚ, d.residual_value = some v → v ≠ 0 → c.residual_value = some v) ∧
    (∀ n : Int, d.lease_period_months = some n → n ≠ 0 → c.lease_period_months = some n) ∧
    (∀ s : String, d.lessee_company_name = some s → s ≠ "" →
      c.lessee_company_name = some s) ∧
    ((d.monthly_rent = none ∨ d.monthly_rent = some 0) →
      ∀ oid offer, d.offer_id = some oid →
        db.offers.find? (fun o => o.id == oid && o.status == OfferStatus.ACCEPTED)
          = some offer →
        c.monthly_rent = some offer.monthly_payment) := by
  simp only [create_contract] at hok
  split at hok
  · cases hok
  · split at hok
    · cases hok
    · split at hok
      · cases hok
      · split at hok
        · cases hok
        · split at hok
          · cases hok
          · injection hok with h1
            rw [Prod.mk.injEq] at h1
            obtain ⟨hdb, hcc⟩ := h1
            subst hcc
            refine ⟨?_, ?_, ?_, ?_, ?_, ?_⟩
            · intro v hv hne
              simp [pyOrQ, hv, hne]
            · intro v hv hne
              simp [pyOrQ, hv, hne]
            · intro v hv hne
              simp [pyOrQ, hv, hne]
            · intro n hn hne
              simp [pyOrI, hn, hne]
            · intro s hs hne
              simp [pyOrS, hs, hne]
            · intro hfalsy oid offer hoid hfind
              rcases hfalsy with h | h <;> simp [pyOrQ, h, hoid, hfind]

/-- C3 witness: concrete run in `dbC8` with a truthy caller-supplied
`monthly_rent = 600`; the created contract carries 600, overriding the
offer's 450. -/
theorem create_contract_caller_truthy_wins_witness :
    ∃ db2 c, create_contract dbC8
        { application_id := 1, offer_id := some 1, monthly_rent := some 600 }
        finUser "A000777888" = .ok (db2, c) ∧
      c.monthly_rent = some 600 := by
  refine ⟨_, _, rfl, ?_⟩
  exact (create_contract_caller_truthy_wins dbC8
    { application_id := 1, offer_id := some 1, monthly_rent := some 600 }
    finUser "A000777888" _ _ rfl).1 600 rfl (by norm_num)

/-- Test fixture: info request 1 by financier 1 on application 1, in a
given status. -/
def ir1 (st : InfoRequestStatus) : InfoRequest :=
  { id := 1, application_id := 1, financier_id := 1,
    message := "Tarvitsemme tilinpäätöksen.", requested_items := none, status := st }

/-- Test fixture: world for the info-request scenario — info request 1 is
PENDING on application 1 (status INFO_REQUESTED), financier 1 assigned. -/
def dbC4 : DB :=
  { users := [custUser, finUser], financiers := [fin1],
    applications := [app1 ApplicationStatus.INFO_REQUESTED], assignments := [asg1],
    offers := [], contracts := [], info_requests := [ir1 InfoRequestStatus.PENDING],
    info_request_responses := [], notifications := [] }

/-- C4 counterexample: in `dbC4` the assigned financier responds to
PENDING info request 1.  No notification is created, but — contrary to
the claim that a financier response changes neither the status nor
notifications — the InfoRequest's status flips from PENDING to
RESPONDED: the route sets RESPONDED unconditionally for any responder. -/
theorem respond_financier_status_flip_cex :
    ∃ db2 ir2, respond_to_info_request dbC4
        { info_request_id := 1, message := "Ohessa." } finUser = .ok (db2, ir2) ∧
      (dbC4.findInfoRequest 1).map (·.status) = some InfoRequestStatus.PENDING ∧
      ir2.status = InfoRequestStatus.RESPONDED ∧
      db2.findInfoRequest 1 = some ir2 ∧
      db2.notifications = dbC4.notifications :=
  ⟨_, _, rfl, rfl, rfl, rfl, rfl⟩

/-- C4 (amended).  Responding to an info request sets its status to
RESPONDED unconditionally, whoever the responder is; what depends on the
responder is only the notification fan-out: a response by the assigned
financier creates no notification at all (in particular none for the
customer), while a response by the owning customer notifies the
requesting financier's active users. -/
theorem respond_status_and_notifications (db : DB) (d : InfoRequestResponseCreate)
    (cu : User) (ir : InfoRequest) (app : Application)
    (hir : db.findInfoRequest d.info_request_id = some ir)
    (happ : db.findApplication ir.application_id = some app) :
    (cu.role = UserRole.FINANCIER → cu.financier_id = some ir.financier_id →
      ∃ db2, respond_to_info_request db d cu =
          .ok (db2, { ir with status := InfoRequestStatus.RESPONDED }) ∧
        db2.findInfoRequest d.info_request_id =
          some { ir with status := InfoRequestStatus.RESPONDED } ∧
        db2.notifications = db.notifications) ∧
    (cu.role = UserRole.CUSTOMER → app.customer_id = cu.id →
      ∃ db2, respond_to_info_request db d cu =
          .ok (db2, { ir with status := InfoRequestStatus.RESPONDED }) ∧
        db2.findInfoRequest d.info_request_id =
          some { ir with status := InfoRequestStatus.RESPONDED } ∧
        db2.notifications = db.notifications ++
          notifyInfoProvided ((db.activeFinancierUsers ir.financier_id).map (·.id))
            app.id app.reference_number) := by
  have hir' : findById InfoRequest.id db.info_requests d.info_request_id = some ir := hir
  have happ' : findById Application.id db.applications ir.application_id = some app := happ
  have hid : ir.id = d.info_request_id := findById_eq_id _ _ _ _ hir
  have hirs : findById InfoRequest.id
      (updateById InfoRequest.id db.info_requests ir.id
        (fun x => { x with status := InfoRequestStatus.RESPONDED })) d.info_request_id =
      some { ir with status := InfoRequestStatus.RESPONDED } := by
    rw [← hid]
    exact findById_updateById_same InfoRequest.id db.info_requests ir.id
      (fun x => { x with status := InfoRequestStatus.RESPONDED })
      (fun y => rfl) ir (by rw [hid]; exact hir)
  constructor
  · intro hrole hfid
    refine ⟨{ db with
        info_request_responses := db.info_request_responses ++
          [{ info_request_id := ir.id, user_id := cu.id,
             message := d.message, attachments := d.attachment_ids }],
        info_requests := updateById InfoRequest.id db.info_requests ir.id
          (fun x => { x with status := InfoRequestStatus.RESPONDED }) },
      ?_, hirs, rfl⟩
    simp [respond_to_info_request, hir', happ', hrole, hfid.symm,
      DB.findInfoRequest, DB.findApplication]
  · intro hrole hown
    refine ⟨{ db with
        info_request_responses := db.info_request_responses ++
          [{ info_request_id := ir.id, user_id := cu.id,
             message := d.message, attachments := d.attachment_ids }],
        info_requests := updateById InfoRequest.id db.info_requests ir.id
          (fun x => { x with status := InfoRequestStatus.RESPONDED }),
        notifications := db.notifications ++
          notifyInfoProvided ((db.activeFinancierUsers ir.financier_id).map (·.id))
            app.id app.reference_number },
      ?_, hirs, rfl⟩
    simp [respond_to_info_request, hir', happ', hrole, hown,
      DB.findInfoRequest, DB.findApplication, DB.activeFinancierUsers]

/-- C4 witness: concrete runs in `dbC4` — the financier's response flips
the status without notifications; the customer's response flips the
status and notifies financier user 3. -/
theorem respond_status_and_notifications_witness :
    (∃ db2, respond_to_info_request dbC4
        { info_request_id := 1, message := "Ohessa liite." } finUser =
          .ok (db2, { ir1 InfoRequestStatus.PENDING with
                       status := InfoRequestStatus.RESPONDED }) ∧
      db2.findInfoRequest 1 =
        some { ir1 InfoRequestStatus.PENDING with
                status := InfoRequestStatus.RESPONDED } ∧
      db2.notifications = dbC4.notifications) :=
  (respond_status_and_notifications dbC4
    { info_request_id := 1, message := "Ohessa liite." } finUser
    (ir1 InfoRequestStatus.PENDING) (app1 ApplicationStatus.INFO_REQUESTED)
    rfl rfl).1 rfl rfl

end Kantama
